import Mathlib

set_option maxRecDepth 8192

/-!
Shallow embedding of the safety portal repository: the SOS alert lifecycle
(Dashboard handleSOS and handleDeactivateSOS), the incident submission form
(Incidents handleSubmit), the forum upvote path (Forum handleUpvote together
with the update_updated_at_column trigger from the migration), the legal
resource filter (Legal filteredResources), and the two notification
dispatcher functions (notify-sos and notify-incident-update).

External calls (geolocation, reverse geocoding, database reads and writes,
the email provider) are modelled as explicit inputs: each embedded operation
takes the outcome of every external call it performs and returns the
observable effects the source produces from those outcomes.
-/

/-! ## Strings: JavaScript style lower casing and substring containment -/

/-- ASCII lower casing of one character code, modelling the effect of the
JavaScript toLowerCase call on the ASCII data this application handles. -/
def lowerCode (n : Nat) : Nat :=
  if 65 ≤ n ∧ n ≤ 90 then n + 32 else n

/-- The list of lower cased character codes of a string. -/
def lowerCodes (s : String) : List Nat :=
  s.data.map (fun c => lowerCode c.toNat)

/-- Whether the first list is a prefix of the second. -/
def codesHavePrefix : List Nat → List Nat → Bool
  | [], _ => true
  | _ :: _, [] => false
  | p :: ps, h :: hs => (p == h) && codesHavePrefix ps hs

/-- Whether the second list contains the first as a contiguous sublist,
modelling the JavaScript includes method on strings. -/
def codesContain (pat : List Nat) : List Nat → Bool
  | [] => pat.isEmpty
  | h :: hs => codesHavePrefix pat (h :: hs) || codesContain pat hs

/-- Case insensitive containment: models the source pattern
hay.toLowerCase().includes(pat.toLowerCase()). -/
def includesCI (hay pat : String) : Bool :=
  codesContain (lowerCodes pat) (lowerCodes hay)

/-- JavaScript truthiness test on a nullable string: null and the empty
string are falsy, every other string is truthy. -/
def jsFalsyStr : Option String → Bool
  | none => true
  | some s => s == ""

/-! ## Legal resource catalog (src/src/pages/Legal.tsx) -/

/-- A row of the legal_resources table as read by the Legal page. -/
structure LegalResource where
  id : String
  category : String
  title : String
  content : String
deriving DecidableEq, Repr

/-- Embedding of filteredResources from src/src/pages/Legal.tsx lines 30 to
37: substring search over title and content after lower casing both sides,
combined with the category test. The category test mirrors the source
expression with JavaScript truthiness: a null or empty selectedCategory
disables the category restriction. -/
def filteredResources (resources : List LegalResource) (searchTerm : String)
    (selectedCategory : Option String) : List LegalResource :=
  resources.filter (fun resource =>
    let matchesSearch :=
      includesCI resource.title searchTerm || includesCI resource.content searchTerm
    let matchesCategory :=
      jsFalsyStr selectedCategory ||
        (match selectedCategory with
         | some c => resource.category == c
         | none => false)
    matchesSearch && matchesCategory)

/-- The legal resource filter as the specification states it: the title or
content contains the search term case insensitively, and either no category
is selected or the category of the resource equals the selected one. -/
def specLegalMatch (r : LegalResource) (searchTerm : String)
    (selectedCategory : Option String) : Prop :=
  (includesCI r.title searchTerm = true ∨ includesCI r.content searchTerm = true) ∧
  (selectedCategory = none ∨ selectedCategory = some r.category)

/-- The legal resource filter amended to match the source: a selected
category that is the empty string is falsy in JavaScript and therefore also
disables the category restriction. -/
def specLegalMatchAmended (r : LegalResource) (searchTerm : String)
    (selectedCategory : Option String) : Prop :=
  (includesCI r.title searchTerm = true ∨ includesCI r.content searchTerm = true) ∧
  (selectedCategory = none ∨ selectedCategory = some "" ∨
    selectedCategory = some r.category)

instance (r : LegalResource) (searchTerm : String) (selectedCategory : Option String) :
    Decidable (specLegalMatch r searchTerm selectedCategory) := by
  unfold specLegalMatch
  infer_instance

instance (r : LegalResource) (searchTerm : String) (selectedCategory : Option String) :
    Decidable (specLegalMatchAmended r searchTerm selectedCategory) := by
  unfold specLegalMatchAmended
  infer_instance

/-! ## SOS alert rows and lifecycle (src/unnamed/part_003, Dashboard) -/

/-- A row of the sos_alerts table. Coordinates are modelled as integers;
only their presence and zero test matter to the claims. Times are abstract
ticks. -/
structure SosAlertRow where
  id : String
  user_id : String
  latitude : Int
  longitude : Int
  location_address : Option String
  is_active : Bool
  created_at : Nat
  deactivated_at : Option Nat
deriving DecidableEq, Repr

/-- The record passed to the sos_alerts insert in handleSOS. -/
structure SosInsert where
  user_id : String
  latitude : Int
  longitude : Int
  location_address : Option String
  is_active : Bool
deriving DecidableEq, Repr

/-- The row produced by the sos_alerts insert: the supplied columns are
stored as given, the columns the insert omits take their schema defaults, in
particular deactivated_at is null and created_at defaults to now. -/
def insertSosRow (ins : SosInsert) (newId : String) (now : Nat) : SosAlertRow :=
  { id := newId
    user_id := ins.user_id
    latitude := ins.latitude
    longitude := ins.longitude
    location_address := ins.location_address
    is_active := ins.is_active
    created_at := now
    deactivated_at := none }

/-- The coordinates delivered by the geolocation API. -/
structure Coords where
  latitude : Int
  longitude : Int
deriving DecidableEq, Repr

/-- The JSON payload parsed from the reverse geocoding response; the
display_name field may be absent. -/
structure GeocodeJson where
  display_name : Option String
deriving DecidableEq, Repr

/-- Outcomes of the external calls performed by handleSOS, in the order the
source performs them: getCurrentPosition (rejects with an error message),
the reverse geocoding fetch plus response.json() (an error when either
throws), the sos_alerts insert, and functions.invoke on notify-sos (which
reports failure through its error result instead of throwing). -/
structure SOSEnv where
  geolocation : Except String Coords
  geocode : Except String GeocodeJson
  insertOutcome : Except String Unit
  notify : String → Option String

/-- Observable effects of one handleSOS run: the row written to sos_alerts
if any, the message given to toast.error if any, whether toast.success ran,
the sosId passed to functions.invoke if it was called, and the notify error
recorded with console.error if any. -/
structure SOSResult where
  insertedRow : Option SosAlertRow
  errorToast : Option String
  successToast : Bool
  notifyCalledWith : Option String
  loggedNotifyError : Option String
deriving DecidableEq, Repr

/-- The catch branch of handleSOS shows error.message with a JavaScript
fallback: toast.error(error.message or the fixed text when the message is
falsy). -/
def sosCatchMessage (e : String) : String :=
  if e = "" then "Failed to activate SOS alert" else e

/-- Embedding of handleSOS from src/unnamed/part_003 lines 335 to 387. The
geolocation call, the geocoding fetch with its json parse, and the insert
all run inside one try block: a throw from any of them reaches the catch,
which surfaces toast.error and ends the run. On insert success the inserted
row is read back, toast.success runs, and notify-sos is invoked with the new
row id; a notify error is only logged. -/
def handleSOS (hasSession : Bool) (userId : String) (env : SOSEnv)
    (newId : String) (now : Nat) : SOSResult :=
  if hasSession = false then
    { insertedRow := none, errorToast := none, successToast := false
      notifyCalledWith := none, loggedNotifyError := none }
  else
    match env.geolocation with
    | .error e =>
      { insertedRow := none, errorToast := some (sosCatchMessage e)
        successToast := false, notifyCalledWith := none, loggedNotifyError := none }
    | .ok coords =>
      match env.geocode with
      | .error e =>
        { insertedRow := none, errorToast := some (sosCatchMessage e)
          successToast := false, notifyCalledWith := none, loggedNotifyError := none }
      | .ok locationData =>
        let address := locationData.display_name
        let ins : SosInsert :=
          { user_id := userId, latitude := coords.latitude
            longitude := coords.longitude, location_address := address
            is_active := true }
        match env.insertOutcome with
        | .error e =>
          { insertedRow := none, errorToast := some (sosCatchMessage e)
            successToast := false, notifyCalledWith := none, loggedNotifyError := none }
        | .ok _ =>
          let alertData := insertSosRow ins newId now
          { insertedRow := some alertData, errorToast := none
            successToast := true, notifyCalledWith := some alertData.id
            loggedNotifyError := env.notify alertData.id }

/-- The update record written by handleDeactivateSOS: is_active false and
deactivated_at stamped with the current time, in the same update. -/
def deactivateUpdate (r : SosAlertRow) (now : Nat) : SosAlertRow :=
  { r with is_active := false, deactivated_at := some now }

/-- Embedding of handleDeactivateSOS from src/unnamed/part_003 lines 389 to
406: an update with predicate eq(id, activeAlert.id) applied to the
sos_alerts table. -/
def handleDeactivateSOS (db : List SosAlertRow) (activeAlertId : String)
    (now : Nat) : List SosAlertRow :=
  db.map (fun r => if r.id = activeAlertId then deactivateUpdate r now else r)

/-- The SOS alert invariant of the specification: deactivated_at is non null
exactly when is_active is false. -/
def sosInvariant (r : SosAlertRow) : Prop :=
  r.deactivated_at ≠ none ↔ r.is_active = false

instance (r : SosAlertRow) : Decidable (sosInvariant r) := by
  unfold sosInvariant
  infer_instance

/-! ## Incident submission (src/unnamed/part_003, Incidents) -/

/-- The record passed to the incidents insert in handleSubmit. -/
structure IncidentInsert where
  user_id : Option String
  incident_type : String
  description : String
  location_address : String
  latitude : Option Int
  longitude : Option Int
  is_anonymous : Bool
  status : String
deriving DecidableEq, Repr

/-- The JavaScript expression v or undefined for a value of type number or
null: null and zero are falsy and give undefined (an omitted column, hence
null in the database); every other number passes through. -/
def numOrUndefined (v : Option Int) : Option Int :=
  match v with
  | none => none
  | some n => if n = 0 then none else some n

/-- Embedding of handleSubmit from src/unnamed/part_003 lines 82 to 117
(the Incidents page): the insert record built from the form state and the
session user id. -/
def handleSubmit (sessionUserId : String)
    (incidentType description locationAddress : String)
    (latitude longitude : Option Int) (isAnonymous : Bool) : IncidentInsert :=
  { user_id := if isAnonymous then none else some sessionUserId
    incident_type := incidentType
    description := description
    location_address := locationAddress
    latitude := numOrUndefined latitude
    longitude := numOrUndefined longitude
    is_anonymous := isAnonymous
    status := "new" }

/-! ## Forum upvote (src/src/pages/Forum.tsx and the migration trigger) -/

/-- A row of the forum_posts table. -/
structure ForumPost where
  id : String
  user_id : String
  title : String
  content : String
  upvotes : Int
  created_at : Nat
  updated_at : Nat
deriving DecidableEq, Repr

/-- The update_updated_at_column trigger from the migration, attached BEFORE
UPDATE to forum_posts: it stamps updated_at with the current time on the new
row of every update. -/
def update_updated_at_column (now : Nat) (new : ForumPost) : ForumPost :=
  { new with updated_at := now }

/-- The effect of the handleUpvote update on one matched row: the upvotes
column is set to currentUpvotes + 1 and the trigger stamps updated_at. -/
def upvoteRowUpdate (p : ForumPost) (currentUpvotes : Int) (now : Nat) : ForumPost :=
  update_updated_at_column now { p with upvotes := currentUpvotes + 1 }

/-- Embedding of handleUpvote from src/src/pages/Forum.tsx lines 149 to 160:
an update with predicate eq(id, postId) setting upvotes to the value the
client read plus one, combined with the updated_at trigger. -/
def handleUpvote (db : List ForumPost) (postId : String) (currentUpvotes : Int)
    (now : Nat) : List ForumPost :=
  db.map (fun p => if p.id = postId then upvoteRowUpdate p currentUpvotes now else p)

/-! ## Notification dispatcher functions -/

/-- The environment variables both dispatcher functions read at startup. -/
structure EnvConfig where
  supabaseUrl : String
  supabaseAnonKey : String
  supabaseServiceRoleKey : String
  resendApiKey : String
  fromEmail : String
deriving DecidableEq, Repr

/-- The configuration guard of both functions: the 500 branch fires when any
of the five variables is empty. -/
abbrev EnvConfig.missing (e : EnvConfig) : Prop :=
  e.supabaseUrl = "" ∨ e.supabaseAnonKey = "" ∨ e.supabaseServiceRoleKey = "" ∨
    e.resendApiKey = "" ∨ e.fromEmail = ""

/-- The body of an HTTP response from a dispatcher function: the plain ok
text answered to a preflight, an error object, a plain success object, or a
success object carrying a skipped reason. -/
inductive RespBody where
  | okText : RespBody
  | error : String → RespBody
  | success : RespBody
  | successSkipped : String → RespBody
deriving DecidableEq, Repr

/-- An HTTP response: status code and body. -/
structure HttpResponse where
  status : Nat
  body : RespBody
deriving DecidableEq, Repr

/-- The result of one dispatcher run: the response, and whether the email
provider was called at all. -/
structure DispatchResult where
  response : HttpResponse
  emailAttempted : Bool
deriving DecidableEq, Repr

/-- A row of the incidents table as the dispatcher reads it. -/
structure IncidentRow where
  id : String
  user_id : Option String
  incident_type : String
  description : String
  location_address : Option String
  status : String
deriving DecidableEq, Repr

/-- Outcomes of the backend reads performed by the notify-sos function:
auth.getUser on the caller credential, the sos_alerts lookup by id, the
admin role membership test, the target user email lookup by user id, and
whether the email provider accepts the send. -/
structure NotifySosDb where
  authUser : Option String
  sosLookup : String → Option SosAlertRow
  adminRole : String → Bool
  userEmail : String → Option String
  emailSendOk : Bool

/-- Embedding of the notify-sos request handler (src/unnamed/part_000).
bodyParse is the outcome of req.json(): an error when the body is not JSON,
otherwise the sosId field of the parsed object when present. The guards run
in source order: method, authorization header, configuration, body, sosId
truthiness, caller identity, record lookup, owner or admin check, recipient
email, email send. The profile read and the message text only shape the
email body and are not modelled. -/
def notifySosHandler (method : String) (authHeader : String) (env : EnvConfig)
    (bodyParse : Except Unit (Option String)) (db : NotifySosDb) : DispatchResult :=
  if method = "OPTIONS" then ⟨⟨200, .okText⟩, false⟩
  else if method ≠ "POST" then ⟨⟨405, .error "Method not allowed"⟩, false⟩
  else if authHeader = "" then ⟨⟨401, .error "Missing Authorization header"⟩, false⟩
  else if env.missing then ⟨⟨500, .error "Missing function environment configuration"⟩, false⟩
  else
    match bodyParse with
    | .error _ => ⟨⟨400, .error "Invalid JSON body"⟩, false⟩
    | .ok sosField =>
      match sosField with
      | none => ⟨⟨400, .error "Missing sosId"⟩, false⟩
      | some sosId =>
        if sosId = "" then ⟨⟨400, .error "Missing sosId"⟩, false⟩
        else
          match db.authUser with
          | none => ⟨⟨401, .error "Unauthorized"⟩, false⟩
          | some userId =>
            match db.sosLookup sosId with
            | none => ⟨⟨404, .error "SOS alert not found"⟩, false⟩
            | some sos =>
              if db.adminRole userId = false ∧ sos.user_id ≠ userId then
                ⟨⟨403, .error "Forbidden"⟩, false⟩
              else
                match db.userEmail sos.user_id with
                | none => ⟨⟨400, .error "Target user email not found"⟩, false⟩
                | some _ =>
                  if db.emailSendOk then ⟨⟨200, .success⟩, true⟩
                  else ⟨⟨502, .error "Failed to send email"⟩, true⟩

/-- Outcomes of the backend reads performed by the notify-incident-update
function: auth.getUser on the caller credential, the admin role membership
test, the incidents lookup by id, the reporter email lookup by user id, and
whether the email provider accepts the send. -/
structure NotifyIncidentDb where
  authUser : Option String
  adminRole : String → Bool
  incidentLookup : String → Option IncidentRow
  userEmail : String → Option String
  emailSendOk : Bool

/-- Embedding of the notify-incident-update request handler
(src/supabase/functions/notify-incident-update/index.ts). The guards run in
source order: method, authorization header, configuration, body, incidentId
truthiness, caller identity, admin check, record lookup, the anonymous
incident skip, the unresolved reporter email skip, email send. The profile
read and the message text only shape the email body and are not modelled. -/
def notifyIncidentUpdateHandler (method : String) (authHeader : String)
    (env : EnvConfig) (bodyParse : Except Unit (Option String))
    (db : NotifyIncidentDb) : DispatchResult :=
  if method = "OPTIONS" then ⟨⟨200, .okText⟩, false⟩
  else if method ≠ "POST" then ⟨⟨405, .error "Method not allowed"⟩, false⟩
  else if authHeader = "" then ⟨⟨401, .error "Missing Authorization header"⟩, false⟩
  else if env.missing then ⟨⟨500, .error "Missing function environment configuration"⟩, false⟩
  else
    match bodyParse with
    | .error _ => ⟨⟨400, .error "Invalid JSON body"⟩, false⟩
    | .ok incidentField =>
      match incidentField with
      | none => ⟨⟨400, .error "Missing incidentId"⟩, false⟩
      | some incidentId =>
        if incidentId = "" then ⟨⟨400, .error "Missing incidentId"⟩, false⟩
        else
          match db.authUser with
          | none => ⟨⟨401, .error "Unauthorized"⟩, false⟩
          | some userId =>
            if db.adminRole userId = false then ⟨⟨403, .error "Forbidden"⟩, false⟩
            else
              match db.incidentLookup incidentId with
              | none => ⟨⟨404, .error "Incident not found"⟩, false⟩
              | some incident =>
                match incident.user_id with
                | none => ⟨⟨200, .successSkipped "anonymous incident"⟩, false⟩
                | some reporterId =>
                  match db.userEmail reporterId with
                  | none => ⟨⟨200, .successSkipped "user email not found"⟩, false⟩
                  | some _ =>
                    if db.emailSendOk then ⟨⟨200, .success⟩, true⟩
                    else ⟨⟨502, .error "Failed to send email"⟩, true⟩

/-! ## Concrete fixtures used to instantiate the theorems -/

/-- A legal resource with a nonempty category. -/
def legalR0 : LegalResource := { id := "r0", category := "x", title := "t", content := "c" }

/-- A forum post with upvotes 3 and updated_at 0. -/
def post0 : ForumPost :=
  { id := "p1", user_id := "u1", title := "t", content := "c"
    upvotes := 3, created_at := 0, updated_at := 0 }

/-- An active SOS alert row owned by user u1, satisfying the lifecycle
invariant. -/
def sosRow0 : SosAlertRow :=
  { id := "s1", user_id := "u1", latitude := 1, longitude := 2
    location_address := none, is_active := true, created_at := 0
    deactivated_at := none }

/-- A fully populated configuration. -/
def envOk : EnvConfig :=
  { supabaseUrl := "url", supabaseAnonKey := "anon"
    supabaseServiceRoleKey := "service", resendApiKey := "resend"
    fromEmail := "from" }

/-- A handleSOS environment where geolocation succeeds and the reverse
geocoding request throws. -/
def sosEnvGeoFail : SOSEnv :=
  { geolocation := .ok ⟨1, 2⟩, geocode := .error "network error"
    insertOutcome := .ok (), notify := fun _ => none }

/-- A handleSOS environment where geocoding parses but carries no
display_name. -/
def sosEnvNoName : SOSEnv :=
  { geolocation := .ok ⟨1, 2⟩, geocode := .ok ⟨none⟩
    insertOutcome := .ok (), notify := fun _ => none }

/-- A handleSOS environment where everything succeeds except the notify-sos
invocation. -/
def sosEnvNotifyFail : SOSEnv :=
  { geolocation := .ok ⟨1, 2⟩, geocode := .ok ⟨some "addr"⟩
    insertOutcome := .ok (), notify := fun _ => some "invoke failed" }

/-- A notify-sos backend where the caller is the admin owner u1, the alert
exists, but the target user email cannot be resolved. -/
def sosDbNoEmail : NotifySosDb :=
  { authUser := some "u1", sosLookup := fun _ => some sosRow0
    adminRole := fun _ => true, userEmail := fun _ => none, emailSendOk := true }

/-- A notify-sos backend where the referenced alert does not exist. -/
def sosDbMissingAlert : NotifySosDb :=
  { authUser := some "u2", sosLookup := fun _ => none
    adminRole := fun _ => false, userEmail := fun _ => some "a@b", emailSendOk := true }

/-- A notify-sos backend where the alert exists but the caller u2 is neither
its owner u1 nor an admin. -/
def sosDbOther : NotifySosDb :=
  { authUser := some "u2", sosLookup := fun _ => some sosRow0
    adminRole := fun _ => false, userEmail := fun _ => some "a@b", emailSendOk := true }

/-- An anonymous incident row: user_id null. -/
def incAnon0 : IncidentRow :=
  { id := "i1", user_id := none, incident_type := "assault"
    description := "d", location_address := none, status := "new" }

/-- A non anonymous incident row reported by user v1. -/
def incOwned0 : IncidentRow :=
  { id := "i2", user_id := some "v1", incident_type := "assault"
    description := "d", location_address := none, status := "resolved" }

/-- A notify-incident-update backend where the caller is an admin, the
incident exists and is owned, but the reporter email cannot be resolved. -/
def incDbNoEmail : NotifyIncidentDb :=
  { authUser := some "adm", adminRole := fun _ => true
    incidentLookup := fun _ => some incOwned0
    userEmail := fun _ => none, emailSendOk := true }

/-- A notify-incident-update backend where the caller is an admin and the
incident exists and is anonymous. -/
def incDbAnon : NotifyIncidentDb :=
  { authUser := some "adm", adminRole := fun _ => true
    incidentLookup := fun _ => some incAnon0
    userEmail := fun _ => some "a@b", emailSendOk := true }

/-! ## Claim C8: the legal resource filter -/

/-- C8 counterexample: with the empty string selected as category, the
source filter keeps a resource of category x because an empty selected
category is falsy in JavaScript and disables the category restriction, while
the claim as stated requires the category of the resource to equal the
selected one. -/
theorem C8_counterexample :
    ¬ (legalR0 ∈ filteredResources [legalR0] "" (some "") ↔
        legalR0 ∈ [legalR0] ∧ specLegalMatch legalR0 "" (some "")) := by
  decide

/-- C8 (amended): for every legal resource list, search term, and optional
selected category, the filtered result contains exactly those resources of
the list whose title or content contains the search term case insensitively
and for which no category is selected, or the selected category is the empty
string, or the category of the resource equals the selected one. -/
theorem C8_theorem (resources : List LegalResource) (searchTerm : String)
    (selectedCategory : Option String) (r : LegalResource) :
    r ∈ filteredResources resources searchTerm selectedCategory ↔
      r ∈ resources ∧ specLegalMatchAmended r searchTerm selectedCategory := by
  unfold filteredResources specLegalMatchAmended
  rw [List.mem_filter]
  refine and_congr_right fun _ => ?_
  cases selectedCategory with
  | none => simp [jsFalsyStr]
  | some c =>
    by_cases hc : c = ""
    · subst hc
      simp [jsFalsyStr]
    · show ((includesCI r.title searchTerm || includesCI r.content searchTerm) &&
          (jsFalsyStr (some c) || r.category == c)) = true ↔ _
      have hf : jsFalsyStr (some c) = false := by
        simp [jsFalsyStr, hc]
      rw [hf, Bool.false_or, Bool.and_eq_true, Bool.or_eq_true, beq_iff_eq]
      constructor
      · rintro ⟨hs, hcat⟩
        exact ⟨hs, Or.inr (Or.inr (congrArg some hcat.symm))⟩
      · rintro ⟨hs, hcat | hcat | hcat⟩
        · exact absurd hcat (by simp)
        · exact absurd (Option.some.inj hcat) hc
        · exact ⟨hs, (Option.some.inj hcat).symm⟩

/-! ## Claim C5: user_id null iff is_anonymous on created incidents -/

/-- C5: for every incident created through handleSubmit, the stored user_id
is null exactly when the stored is_anonymous flag is true. -/
theorem C5_theorem (sessionUserId incidentType description locationAddress : String)
    (latitude longitude : Option Int) (isAnonymous : Bool) :
    (handleSubmit sessionUserId incidentType description locationAddress
        latitude longitude isAnonymous).user_id = none ↔
      (handleSubmit sessionUserId incidentType description locationAddress
        latitude longitude isAnonymous).is_anonymous = true := by
  cases isAnonymous <;> simp [handleSubmit]

/-! ## Claim C9: zero coordinates are stored as null -/

/-- C9: in the incident insert built by handleSubmit, a captured coordinate
equal to zero is stored as null because of the JavaScript truthiness
expression, and every nonzero coordinate is stored as given. -/
theorem C9_theorem (sessionUserId incidentType description locationAddress : String)
    (latitude longitude : Option Int) (isAnonymous : Bool) :
    ((latitude = some 0 →
        (handleSubmit sessionUserId incidentType description locationAddress
          latitude longitude isAnonymous).latitude = none) ∧
      (∀ v : Int, v ≠ 0 → latitude = some v →
        (handleSubmit sessionUserId incidentType description locationAddress
          latitude longitude isAnonymous).latitude = some v)) ∧
    ((longitude = some 0 →
        (handleSubmit sessionUserId incidentType description locationAddress
          latitude longitude isAnonymous).longitude = none) ∧
      (∀ v : Int, v ≠ 0 → longitude = some v →
        (handleSubmit sessionUserId incidentType description locationAddress
          latitude longitude isAnonymous).longitude = some v)) := by
  refine ⟨⟨?_, ?_⟩, ?_, ?_⟩
  · intro h
    subst h
    simp [handleSubmit, numOrUndefined]
  · intro v hv h
    subst h
    simp [handleSubmit, numOrUndefined, hv]
  · intro h
    subst h
    simp [handleSubmit, numOrUndefined]
  · intro v hv h
    subst h
    simp [handleSubmit, numOrUndefined, hv]

/-- C9 witness: a zero latitude is stored as null while a nonzero longitude
is stored as given. -/
theorem C9_witness :
    (handleSubmit "u" "assault" "d" "l" (some 0) (some 7) false).latitude = none ∧
    (handleSubmit "u" "assault" "d" "l" (some 0) (some 7) false).longitude = some 7 :=
  ⟨( C9_theorem "u" "assault" "d" "l" (some 0) (some 7) false).1.1 rfl,
   ( C9_theorem "u" "assault" "d" "l" (some 0) (some 7) false).2.2 7 (by decide) rfl⟩

/-! ## Claim C3: the upvote operation -/

/-- C3 counterexample: upvoting post0, which has upvotes 3 and updated_at 0,
at time 9 yields upvotes 4 but also changes the updated_at field, which the
trigger from the migration stamps on every forum_posts update; so not every
other field is unchanged. -/
theorem C3_counterexample :
    handleUpvote [post0] "p1" 3 9 =
      [{ post0 with upvotes := 4, updated_at := 9 }] ∧
    ({ post0 with upvotes := 4, updated_at := 9 } : ForumPost).updated_at ≠
      post0.updated_at := by
  decide

/-- C3 (amended): upvoting a post with upvote counter N, with no concurrent
writers (so the value the client read equals the stored value), yields a
post whose upvote counter is N + 1 and whose updated_at is stamped with the
current time by the update trigger, with every other field unchanged; rows
whose id differs from the target are unchanged. -/
theorem C3_theorem (db : List ForumPost) (p : ForumPost) (postId : String)
    (now : Nat) (hmem : p ∈ db) :
    (p.id = postId →
      ({ p with upvotes := p.upvotes + 1, updated_at := now } : ForumPost) ∈
        handleUpvote db postId p.upvotes now) ∧
    (p.id ≠ postId → ∀ currentUpvotes : Int,
      p ∈ handleUpvote db postId currentUpvotes now) := by
  constructor
  · intro h
    have hmap := List.mem_map_of_mem
      (fun q => if q.id = postId then upvoteRowUpdate q p.upvotes now else q) hmem
    simpa [handleUpvote, upvoteRowUpdate, update_updated_at_column, h] using hmap
  · intro h currentUpvotes
    have hmap := List.mem_map_of_mem
      (fun q => if q.id = postId then upvoteRowUpdate q currentUpvotes now else q) hmem
    simpa [handleUpvote, h] using hmap

/-- C3 witness: the amended statement instantiated on post0 inside a one row
table. -/
theorem C3_witness :
    ({ post0 with upvotes := post0.upvotes + 1, updated_at := 9 } : ForumPost) ∈
      handleUpvote [post0] "p1" post0.upvotes 9 :=
  ( C3_theorem [post0] post0 "p1" 9 (by simp)).1 rfl

/-! ## Claim C4: the SOS alert lifecycle invariant -/

/-- C4: for every SOS alert, deactivated_at is non null exactly when
is_active is false: every row created by handleSOS satisfies the invariant
(is_active true, deactivated_at null), and handleDeactivateSOS preserves the
invariant across the whole table, writing is_active false and deactivated_at
now in the same update on every matched row. -/
theorem C4_theorem :
    (∀ (hasSession : Bool) (userId : String) (env : SOSEnv) (newId : String)
        (now : Nat) (row : SosAlertRow),
      (handleSOS hasSession userId env newId now).insertedRow = some row →
        sosInvariant row) ∧
    (∀ (db : List SosAlertRow) (activeAlertId : String) (now : Nat),
      (∀ r ∈ db, sosInvariant r) →
        ∀ r ∈ handleDeactivateSOS db activeAlertId now, sosInvariant r) := by
  constructor
  · intro hasSession userId env newId now row h
    unfold handleSOS at h
    split at h
    · simp at h
    · split at h
      · simp at h
      · split at h
        · simp at h
        · split at h
          · simp at h
          · simp only [Option.some.injEq] at h
            subst h
            simp [sosInvariant, insertSosRow]
  · intro db activeAlertId now hinv r hr
    unfold handleDeactivateSOS at hr
    rcases List.mem_map.mp hr with ⟨q, hq, rfl⟩
    by_cases h : q.id = activeAlertId
    · simp [h, deactivateUpdate, sosInvariant]
    · simpa [h] using hinv q hq

/-- C4 witness: the invariant on the row created by a concrete successful
activation, and on a concrete deactivated row. -/
theorem C4_witness :
    sosInvariant (insertSosRow ⟨"u1", 1, 2, some "addr", true⟩ "s9" 5) ∧
    sosInvariant (deactivateUpdate sosRow0 7) :=
  ⟨ C4_theorem.1 true "u1" sosEnvNotifyFail "s9" 5 _ rfl,
    C4_theorem.2 [sosRow0] "s1" 7 (by decide) (deactivateUpdate sosRow0 7) (by decide)⟩

/-! ## Claim C6: successful SOS activation and the fire and forget notify -/

/-- C6: every successful SOS activation writes exactly the row built from
the session user, the coordinates and the geocoded address, with is_active
true and deactivated_at null; notify-sos is invoked with the new row id; a
notify failure is logged, is not surfaced as an error toast, and the row
remains the one written (nothing is rolled back). -/
theorem C6_theorem (userId newId : String) (now : Nat) (env : SOSEnv)
    (coords : Coords) (g : GeocodeJson)
    (hgeo : env.geolocation = .ok coords) (hgc : env.geocode = .ok g)
    (hins : env.insertOutcome = .ok ()) :
    (handleSOS true userId env newId now).insertedRow =
      some (insertSosRow
        ⟨userId, coords.latitude, coords.longitude, g.display_name, true⟩ newId now) ∧
    (insertSosRow
        ⟨userId, coords.latitude, coords.longitude, g.display_name, true⟩ newId now).is_active = true ∧
    (insertSosRow
        ⟨userId, coords.latitude, coords.longitude, g.display_name, true⟩ newId now).deactivated_at = none ∧
    (handleSOS true userId env newId now).notifyCalledWith = some newId ∧
    (handleSOS true userId env newId now).errorToast = none ∧
    (handleSOS true userId env newId now).successToast = true ∧
    ∀ err : String, env.notify newId = some err →
      (handleSOS true userId env newId now).loggedNotifyError = some err := by
  refine ⟨?_, rfl, rfl, ?_, ?_, ?_, ?_⟩ <;>
    simp [handleSOS, hgeo, hgc, hins, insertSosRow]

/-- C6 witness: a concrete activation in which every step succeeds except
the notify-sos invocation; the row is written and active, no error surfaces,
and the invocation failure is logged. -/
theorem C6_witness :
    (handleSOS true "u1" sosEnvNotifyFail "s9" 3).insertedRow =
      some (insertSosRow ⟨"u1", 1, 2, some "addr", true⟩ "s9" 3) ∧
    (handleSOS true "u1" sosEnvNotifyFail "s9" 3).errorToast = none ∧
    (handleSOS true "u1" sosEnvNotifyFail "s9" 3).loggedNotifyError = some "invoke failed" :=
  ⟨( C6_theorem "u1" "s9" 3 sosEnvNotifyFail ⟨1, 2⟩ ⟨some "addr"⟩ rfl rfl rfl).1,
   ( C6_theorem "u1" "s9" 3 sosEnvNotifyFail ⟨1, 2⟩ ⟨some "addr"⟩ rfl rfl rfl).2.2.2.2.1,
   ( C6_theorem "u1" "s9" 3 sosEnvNotifyFail ⟨1, 2⟩ ⟨some "addr"⟩ rfl rfl rfl).2.2.2.2.2.2
     "invoke failed" rfl⟩

/-! ## Claim C1: reverse geocoding failure during SOS activation -/

/-- C1 counterexample: with geolocation succeeding and the reverse geocoding
request throwing, handleSOS creates no alert row at all and surfaces the
failure as an activation error, contradicting the claim that the alert is
still created with an empty address and no error surfaces. -/
theorem C1_counterexample :
    (handleSOS true "u1" sosEnvGeoFail "s9" 0).insertedRow = none ∧
    (handleSOS true "u1" sosEnvGeoFail "s9" 0).errorToast = some "network error" := by
  decide

/-- C1 (amended): when geolocation succeeds, a reverse geocoding request
failure (the fetch or its json parse throws) aborts the activation: no alert
row is written and the failure surfaces as an activation error. The alert is
created with a null address and no error only in the case where the
geocoding response parses but carries no display_name. -/
theorem C1_theorem (userId newId : String) (now : Nat) (env : SOSEnv)
    (coords : Coords) (hgeo : env.geolocation = .ok coords) :
    (∀ e : String, env.geocode = .error e →
      (handleSOS true userId env newId now).insertedRow = none ∧
      (handleSOS true userId env newId now).errorToast = some (sosCatchMessage e)) ∧
    (env.geocode = .ok ⟨none⟩ → env.insertOutcome = .ok () →
      (handleSOS true userId env newId now).insertedRow =
        some (insertSosRow
          ⟨userId, coords.latitude, coords.longitude, none, true⟩ newId now) ∧
      (insertSosRow
          ⟨userId, coords.latitude, coords.longitude, none, true⟩ newId now).location_address = none ∧
      (handleSOS true userId env newId now).errorToast = none) := by
  constructor
  · intro e hgc
    simp [handleSOS, hgeo, hgc]
  · intro hgc hins
    refine ⟨?_, rfl, ?_⟩ <;> simp [handleSOS, hgeo, hgc, hins, insertSosRow]

/-- C1 witness: the amended statement instantiated on a throwing geocode
environment and on a geocode response without display_name. -/
theorem C1_witness :
    ((handleSOS true "u1" sosEnvGeoFail "s9" 0).insertedRow = none ∧
      (handleSOS true "u1" sosEnvGeoFail "s9" 0).errorToast = some (sosCatchMessage "network error")) ∧
    (handleSOS true "u1" sosEnvNoName "s9" 0).errorToast = none :=
  ⟨( C1_theorem "u1" "s9" 0 sosEnvGeoFail ⟨1, 2⟩ rfl).1 "network error" rfl,
   (( C1_theorem "u1" "s9" 0 sosEnvNoName ⟨1, 2⟩ rfl).2 rfl rfl).2.2⟩

/-! ## Claim C7: anonymous incidents are skipped by the dispatcher -/

/-- C7: an admin caller referencing an existing anonymous incident gets a
200 response with success true and the skipped reason anonymous incident,
and no email send is attempted. -/
theorem C7_theorem (authHeader : String) (env : EnvConfig) (db : NotifyIncidentDb)
    (incidentId callerId : String) (incident : IncidentRow)
    (ha : authHeader ≠ "") (henv : ¬ env.missing) (hiid : incidentId ≠ "")
    (hauth : db.authUser = some callerId) (hadm : db.adminRole callerId = true)
    (hlook : db.incidentLookup incidentId = some incident)
    (hanon : incident.user_id = none) :
    notifyIncidentUpdateHandler "POST" authHeader env (.ok (some incidentId)) db =
      ⟨⟨200, .successSkipped "anonymous incident"⟩, false⟩ := by
  simp [notifyIncidentUpdateHandler, ha, henv, hiid, hauth, hadm, hlook, hanon]

/-- C7 witness: a concrete admin request for a concrete anonymous incident. -/
theorem C7_witness :
    notifyIncidentUpdateHandler "POST" "Bearer t" envOk (.ok (some "i1")) incDbAnon =
      ⟨⟨200, .successSkipped "anonymous incident"⟩, false⟩ :=
  C7_theorem "Bearer t" envOk incDbAnon "i1" "adm" incAnon0
    (by decide) (by decide) (by decide) rfl rfl rfl rfl

/-! ## Claim C10: notify-sos looks the record up before authorizing -/

/-- C10: for an authenticated notify-sos request, a nonexistent alert id
yields 404 whatever the role membership and ownership functions are, because
the lookup precedes the owner or admin check; a non owner non admin caller
referencing an existing alert gets 403. -/
theorem C10_theorem (authHeader : String) (env : EnvConfig) (db : NotifySosDb)
    (sosId callerId : String)
    (ha : authHeader ≠ "") (henv : ¬ env.missing) (hsid : sosId ≠ "")
    (hauth : db.authUser = some callerId) :
    (db.sosLookup sosId = none →
      (notifySosHandler "POST" authHeader env (.ok (some sosId)) db).response =
        ⟨404, .error "SOS alert not found"⟩) ∧
    (∀ sos : SosAlertRow, db.sosLookup sosId = some sos →
      db.adminRole callerId = false → sos.user_id ≠ callerId →
      (notifySosHandler "POST" authHeader env (.ok (some sosId)) db).response =
        ⟨403, .error "Forbidden"⟩) := by
  constructor
  · intro hlook
    simp [notifySosHandler, ha, henv, hsid, hauth, hlook]
  · intro sos hlook hadm howner
    simp [notifySosHandler, ha, henv, hsid, hauth, hlook, hadm, howner]

/-- C10 witness: a concrete authenticated caller gets 404 on a missing alert
id, and the same caller gets 403 on an existing alert it neither owns nor
administers. -/
theorem C10_witness :
    (notifySosHandler "POST" "Bearer t" envOk (.ok (some "nope")) sosDbMissingAlert).response =
      ⟨404, .error "SOS alert not found"⟩ ∧
    (notifySosHandler "POST" "Bearer t" envOk (.ok (some "s1")) sosDbOther).response =
      ⟨403, .error "Forbidden"⟩ :=
  ⟨( C10_theorem "Bearer t" envOk sosDbMissingAlert "nope" "u2"
      (by decide) (by decide) (by decide) rfl).1 rfl,
   ( C10_theorem "Bearer t" envOk sosDbOther "s1" "u2"
      (by decide) (by decide) (by decide) rfl).2 sosRow0 rfl rfl (by decide)⟩

/-! ## Claim C2: dispatcher status codes for malformed input and
unresolvable recipients -/

/-- C2 counterexample: an admin request to notify-incident-update for an
existing owned incident whose reporter email cannot be resolved is answered
200 with success true and a skipped reason, not 400 as the claim states. -/
theorem C2_counterexample :
    (notifyIncidentUpdateHandler "POST" "Bearer t" envOk (.ok (some "i2")) incDbNoEmail).response =
      ⟨200, .successSkipped "user email not found"⟩ := by
  decide

/-- C2 (amended): a malformed body (invalid JSON, or a missing or empty id
field) yields 400 at both dispatcher endpoints; an unresolvable recipient
email yields 400 at notify-sos, while notify-incident-update treats it as a
no-op, responding 200 with success true and the skipped reason user email
not found, attempting no email. -/
theorem C2_theorem :
    (∀ (authHeader : String) (env : EnvConfig) (db : NotifySosDb),
      authHeader ≠ "" → ¬ env.missing →
      (notifySosHandler "POST" authHeader env (.error ()) db).response =
        ⟨400, .error "Invalid JSON body"⟩ ∧
      (notifySosHandler "POST" authHeader env (.ok none) db).response =
        ⟨400, .error "Missing sosId"⟩ ∧
      (notifySosHandler "POST" authHeader env (.ok (some "")) db).response =
        ⟨400, .error "Missing sosId"⟩) ∧
    (∀ (authHeader : String) (env : EnvConfig) (db : NotifyIncidentDb),
      authHeader ≠ "" → ¬ env.missing →
      (notifyIncidentUpdateHandler "POST" authHeader env (.error ()) db).response =
        ⟨400, .error "Invalid JSON body"⟩ ∧
      (notifyIncidentUpdateHandler "POST" authHeader env (.ok none) db).response =
        ⟨400, .error "Missing incidentId"⟩ ∧
      (notifyIncidentUpdateHandler "POST" authHeader env (.ok (some "")) db).response =
        ⟨400, .error "Missing incidentId"⟩) ∧
    (∀ (authHeader : String) (env : EnvConfig) (db : NotifySosDb)
        (sosId callerId : String) (sos : SosAlertRow),
      authHeader ≠ "" → ¬ env.missing → sosId ≠ "" →
      db.authUser = some callerId → db.sosLookup sosId = some sos →
      (db.adminRole callerId = true ∨ sos.user_id = callerId) →
      db.userEmail sos.user_id = none →
      (notifySosHandler "POST" authHeader env (.ok (some sosId)) db).response =
        ⟨400, .error "Target user email not found"⟩) ∧
    (∀ (authHeader : String) (env : EnvConfig) (db : NotifyIncidentDb)
        (incidentId callerId reporterId : String) (incident : IncidentRow),
      authHeader ≠ "" → ¬ env.missing → incidentId ≠ "" →
      db.authUser = some callerId → db.adminRole callerId = true →
      db.incidentLookup incidentId = some incident →
      incident.user_id = some reporterId → db.userEmail reporterId = none →
      notifyIncidentUpdateHandler "POST" authHeader env (.ok (some incidentId)) db =
        ⟨⟨200, .successSkipped "user email not found"⟩, false⟩) := by
  refine ⟨?_, ?_, ?_, ?_⟩
  · intro authHeader env db ha henv
    refine ⟨?_, ?_, ?_⟩ <;> simp [notifySosHandler, ha, henv]
  · intro authHeader env db ha henv
    refine ⟨?_, ?_, ?_⟩ <;> simp [notifyIncidentUpdateHandler, ha, henv]
  · intro authHeader env db sosId callerId sos ha henv hsid hauth hlook hrole hmail
    rcases hrole with hadm | howner
    · simp [notifySosHandler, ha, henv, hsid, hauth, hlook, hadm, hmail]
    · rw [howner] at hmail
      simp [notifySosHandler, ha, henv, hsid, hauth, hlook, howner, hmail]
  · intro authHeader env db incidentId callerId reporterId incident
      ha henv hiid hauth hadm hlook hrep hmail
    simp [notifyIncidentUpdateHandler, ha, henv, hiid, hauth, hadm, hlook, hrep, hmail]

/-- C2 witness: concrete requests exercising the four parts of the amended
statement: invalid JSON at notify-sos, a missing incidentId at
notify-incident-update, an unresolvable recipient at notify-sos, and an
unresolvable recipient at notify-incident-update. -/
theorem C2_witness :
    (notifySosHandler "POST" "Bearer t" envOk (.error ()) sosDbNoEmail).response =
      ⟨400, .error "Invalid JSON body"⟩ ∧
    (notifyIncidentUpdateHandler "POST" "Bearer t" envOk (.ok none) incDbNoEmail).response =
      ⟨400, .error "Missing incidentId"⟩ ∧
    (notifySosHandler "POST" "Bearer t" envOk (.ok (some "s1")) sosDbNoEmail).response =
      ⟨400, .error "Target user email not found"⟩ ∧
    notifyIncidentUpdateHandler "POST" "Bearer t" envOk (.ok (some "i2")) incDbNoEmail =
      ⟨⟨200, .successSkipped "user email not found"⟩, false⟩ :=
  ⟨( C2_theorem.1 "Bearer t" envOk sosDbNoEmail (by decide) (by decide)).1,
   ( C2_theorem.2.1 "Bearer t" envOk incDbNoEmail (by decide) (by decide)).2.1,
    C2_theorem.2.2.1 "Bearer t" envOk sosDbNoEmail "s1" "u1" sosRow0
     (by decide) (by decide) (by decide) rfl rfl (Or.inl rfl) rfl,
    C2_theorem.2.2.2 "Bearer t" envOk incDbNoEmail "i2" "adm" "v1" incOwned0
     (by decide) (by decide) (by decide) rfl rfl rfl rfl rfl⟩
